import Mathlib

/-
A shallow embedding of `src/components/generation/OllamaGeneratorAFE.py`:
the async generator `OllamaGeneratorAFE.generate_stream` and its helper
`prepare_messages`.  The network transport (`aiohttp` POST plus the line
iterator over the response body) is a parameter: a function from the request
to either a list of body lines or a transport failure.  `os.environ` is a
parameter `env : String → Option String`.  Python's `json.loads` is embedded
as an executable JSON parser over the line's characters; `dict.get` with a
default, bytes `.strip()`, and Python truthiness are embedded explicitly.
-/

/-- JSON values as produced by Python's `json.loads`.  Objects keep the
Python-dict semantics of `json.loads` (a duplicated key keeps the last
value).  A number keeps its source lexeme: no theorem below depends on a
numeric value. -/
inductive Json where
  | null : Json
  | bool (b : Bool) : Json
  | num (lexeme : String) : Json
  | str (s : String) : Json
  | arr (elems : List Json) : Json
  | obj (fields : List (String × Json)) : Json

/-- Python `dict` lookup on the embedded object: the first binding of the key
(keys are unique by construction, `insertKey` overwrites). -/
def objGet (fields : List (String × Json)) (k : String) : Option Json :=
  match fields with
  | [] => none
  | (k0, v) :: rest => if k0 = k then some v else objGet rest k

/-- Python `dict` insertion while `json.loads` builds an object: a repeated
key overwrites the earlier value in place. -/
def insertKey (fields : List (String × Json)) (k : String) (v : Json) :
    List (String × Json) :=
  match fields with
  | [] => [(k, v)]
  | (k0, v0) :: rest =>
    if k0 = k then (k0, v) :: rest else (k0, v0) :: insertKey rest k v

/-- The opening brace character, U+007B. -/
def lbrace : Char := '\x7b'

/-- The closing brace character, U+007D. -/
def rbrace : Char := '\x7d'

/-- JSON inter-token whitespace (RFC 8259: space, tab, line feed, carriage
return), as skipped by `json.loads`. -/
def jsonWs (c : Char) : Bool :=
  c = ' ' || c = '\t' || c = '\n' || c = '\r'

def skipWs (cs : List Char) : List Char :=
  cs.dropWhile jsonWs

/-- The value of one hexadecimal digit of a `\u` escape (code points 48-57
are the digits, 97-102 and 65-70 the lower- and upper-case letters). -/
def hexVal (c : Char) : Option Nat :=
  let n := c.toNat
  if 48 ≤ n && n ≤ 57 then some (n - 48)
  else if 97 ≤ n && n ≤ 102 then some (n - 87)
  else if 65 ≤ n && n ≤ 70 then some (n - 55)
  else none

/-- One escape sequence after a backslash inside a JSON string.  A `\u`
escape is decoded as a single code point; combining of surrogate pairs is
not modelled (no claim involves `\u` escapes). -/
def escDecode : List Char → Option (Char × List Char)
  | [] => none
  | e :: rest =>
    if e = '"' then some ('"', rest)
    else if e = '\\' then some ('\\', rest)
    else if e = '/' then some ('/', rest)
    else if e = 'b' then some ('\x08', rest)
    else if e = 'f' then some ('\x0c', rest)
    else if e = 'n' then some ('\n', rest)
    else if e = 'r' then some ('\r', rest)
    else if e = 't' then some ('\t', rest)
    else if e = 'u' then
      match rest with
      | h1 :: h2 :: h3 :: h4 :: rest4 =>
        match hexVal h1, hexVal h2, hexVal h3, hexVal h4 with
        | some a, some b, some c, some d =>
          some (Char.ofNat (((a * 16 + b) * 16 + c) * 16 + d), rest4)
        | _, _, _, _ => none
      | _ => none
    else none

/-- The body of a JSON string after the opening quote, in `json.loads`'s
strict mode (an unescaped control character below U+0020 is an error).
Fuel-indexed; every caller supplies fuel past the input length. -/
def parseStringBody : Nat → List Char → Option (String × List Char)
  | 0, _ => none
  | _ + 1, [] => none
  | fuel + 1, c :: rest =>
    if c = '"' then some ("", rest)
    else if c = '\\' then
      match escDecode rest with
      | none => none
      | some (ch, rest2) =>
        match parseStringBody fuel rest2 with
        | none => none
        | some (s, rem) => some (ch.toString ++ s, rem)
    else if c.toNat < 32 then none
    else
      match parseStringBody fuel rest with
      | none => none
      | some (s, rem) => some (c.toString ++ s, rem)

def isDigitCh (c : Char) : Bool := '0' ≤ c && c ≤ '9'

def takeDigits (cs : List Char) : List Char × List Char :=
  (cs.takeWhile isDigitCh, cs.dropWhile isDigitCh)

/-- The integer part of a JSON number: `0`, or a nonzero digit followed by
digits (no leading zero). -/
def parseIntPart : List Char → Option (List Char × List Char)
  | [] => none
  | c :: rest =>
    if c = '0' then some ([c], rest)
    else if isDigitCh c then
      match takeDigits rest with
      | (ds, r) => some (c :: ds, r)
    else none

/-- The optional fraction part `.digits` of a JSON number. -/
def parseFracPart : List Char → Option (List Char × List Char)
  | [] => some ([], [])
  | c :: rest =>
    if c = '.' then
      match takeDigits rest with
      | ([], _) => none
      | (ds, r) => some (c :: ds, r)
    else some ([], c :: rest)

/-- The optional exponent part `e[+-]digits` of a JSON number. -/
def parseExpPart : List Char → Option (List Char × List Char)
  | [] => some ([], [])
  | c :: rest =>
    if c = 'e' || c = 'E' then
      match rest with
      | [] => none
      | s :: r2 =>
        let (sign, rest2) :=
          if s = '+' || s = '-' then ([s], r2) else (([] : List Char), s :: r2)
        match takeDigits rest2 with
        | ([], _) => none
        | (ds, r) => some (c :: (sign ++ ds), r)
    else some ([], c :: rest)

/-- A JSON number, returned as its lexeme. -/
def parseNumber (cs : List Char) : Option (String × List Char) :=
  let (sign, cs1) :=
    match cs with
    | c :: rest => if c = '-' then ([c], rest) else (([] : List Char), c :: rest)
    | [] => (([] : List Char), ([] : List Char))
  match parseIntPart cs1 with
  | none => none
  | some (ip, r1) =>
    match parseFracPart r1 with
    | none => none
    | some (fp, r2) =>
      match parseExpPart r2 with
      | none => none
      | some (ep, r3) => some (String.mk (sign ++ ip ++ fp ++ ep), r3)

def dropExpect : List Char → List Char → Option (List Char)
  | [], cs => some cs
  | _ :: _, [] => none
  | e :: es, c :: cs => if c = e then dropExpect es cs else none

mutual

/-- One JSON value (after skipping leading whitespace), fuel-indexed.  Every
fuel decrement accompanies at least one consumed character, so fuel past the
input length never runs out on a valid input. -/
def parseVal : Nat → List Char → Option (Json × List Char)
  | 0, _ => none
  | fuel + 1, cs =>
    match skipWs cs with
    | [] => none
    | c :: rest =>
      if c = '"' then
        match parseStringBody (rest.length + 1) rest with
        | none => none
        | some (s, rem) => some (Json.str s, rem)
      else if c = lbrace then
        match skipWs rest with
        | d :: rest2 =>
          if d = rbrace then some (Json.obj [], rest2)
          else
            match parseMembers fuel (d :: rest2) [] with
            | none => none
            | some (fields, rem) => some (Json.obj fields, rem)
        | [] => none
      else if c = '[' then
        match skipWs rest with
        | d :: rest2 =>
          if d = ']' then some (Json.arr [], rest2)
          else
            match parseElems fuel (d :: rest2) [] with
            | none => none
            | some (elems, rem) => some (Json.arr elems, rem)
        | [] => none
      else if c = 't' then
        match dropExpect ['r', 'u', 'e'] rest with
        | some rem => some (Json.bool true, rem)
        | none => none
      else if c = 'f' then
        match dropExpect ['a', 'l', 's', 'e'] rest with
        | some rem => some (Json.bool false, rem)
        | none => none
      else if c = 'n' then
        match dropExpect ['u', 'l', 'l'] rest with
        | some rem => some (Json.null, rem)
        | none => none
      else if c = '-' || isDigitCh c then
        match parseNumber (c :: rest) with
        | some (lex, rem) => some (Json.num lex, rem)
        | none => none
      else none

/-- The members of a JSON object, positioned before a key; `acc` holds the
members already read (with Python-dict overwrite on a repeated key). -/
def parseMembers : Nat → List Char → List (String × Json) →
    Option (List (String × Json) × List Char)
  | 0, _, _ => none
  | fuel + 1, cs, acc =>
    match skipWs cs with
    | [] => none
    | c :: rest =>
      if c = '"' then
        match parseStringBody (rest.length + 1) rest with
        | none => none
        | some (k, rem) =>
          match skipWs rem with
          | [] => none
          | d :: rest2 =>
            if d = ':' then
              match parseVal fuel rest2 with
              | none => none
              | some (v, rem2) =>
                match skipWs rem2 with
                | [] => none
                | e :: rest3 =>
                  if e = ',' then parseMembers fuel rest3 (insertKey acc k v)
                  else if e = rbrace then some (insertKey acc k v, rest3)
                  else none
            else none
      else none

/-- The elements of a JSON array, positioned before a value. -/
def parseElems : Nat → List Char → List Json → Option (List Json × List Char)
  | 0, _, _ => none
  | fuel + 1, cs, acc =>
    match parseVal fuel cs with
    | none => none
    | some (v, rem) =>
      match skipWs rem with
      | [] => none
      | e :: rest =>
        if e = ',' then parseElems fuel rest (acc ++ [v])
        else if e = ']' then some (acc ++ [v], rest)
        else none

end

/-- Python `json.loads` on one decoded line: one JSON value, surrounded only
by whitespace; anything else is a `JSONDecodeError`, embedded as `none`. -/
def jsonLoads (s : String) : Option Json :=
  match parseVal (2 * s.length + 2) s.data with
  | none => none
  | some (j, rest) => if skipWs rest = [] then some j else none

/-- ASCII whitespace stripped by Python bytes `.strip()`: space, tab, line
feed, carriage return, vertical tab, form feed.  The code guards each body
line with `if line.strip():`. -/
def pyWsChar (c : Char) : Bool :=
  c = ' ' || c = '\t' || c = '\n' || c = '\r' || c = '\x0b' || c = '\x0c'

/-- Python bytes `.strip()` on a decoded body line: drop the ASCII whitespace
from both ends. -/
def pyStrip (s : String) : String :=
  String.mk (((s.data.dropWhile pyWsChar).reverse.dropWhile pyWsChar).reverse)

/-- Whether a JSON number lexeme denotes a nonzero value: some mantissa digit
is nonzero.  (Underflow of a tiny exponent to floating-point zero is not
modelled; no claim involves numeric truthiness.) -/
def numLexemeTruthy (s : String) : Bool :=
  (s.data.takeWhile (fun c => c ≠ 'e' && c ≠ 'E')).any
    (fun c => '1' ≤ c && c ≤ '9')

/-- Python truthiness of a decoded JSON value, as used by
`"stop" if json_data.get("done", False) else ""`. -/
def truthy : Json → Bool
  | Json.null => false
  | Json.bool b => b
  | Json.num lexeme => numLexemeTruthy lexeme
  | Json.str s => s ≠ ""
  | Json.arr elems => !elems.isEmpty
  | Json.obj fields => !fields.isEmpty

/-- One dict yielded by `generate_stream`: every yield site builds exactly
the two keys `message` and `finish_reason`.  `message` holds whatever Python
value was extracted (a `Json`, normally a string); `finish_reason` is a
string. -/
structure Fragment where
  message : Json
  finish_reason : String

/-- The exceptions the embedded call can propagate: `json.JSONDecodeError`
from `json.loads`, `AttributeError` from `.get` on a non-dict, and any
transport-level error raised by the `aiohttp` POST or body iteration. -/
inductive PyErr where
  | jsonDecodeError : PyErr
  | attributeError : PyErr
  | transportError : PyErr
deriving DecidableEq, Repr

/-- The body of the non-blank-line branch (lines 51-62 of the source):
`message = json_data.get("message", {}).get("content", "")` and
`finish_reason = "stop" if json_data.get("done", False) else ""`.  Python's
`.get` exists only on dicts: on any non-dict receiver an `AttributeError`
propagates. -/
def extractFragment (json_data : Json) : Except PyErr Fragment :=
  match json_data with
  | Json.obj fields =>
    match (objGet fields "message").getD (Json.obj []) with
    | Json.obj mfields =>
      Except.ok
        ⟨(objGet mfields "content").getD (Json.str ""),
          if truthy ((objGet fields "done").getD (Json.bool false)) then "stop"
          else ""⟩
    | _ => Except.error PyErr.attributeError
  | _ => Except.error PyErr.attributeError

/-- The `async for line in response.content` loop (lines 49-67 of the
source): the fragments yielded, and the exception that ends the loop early,
if any.  A non-blank line is parsed with `json.loads` and yields the
extracted fragment; a blank line yields `{"message": "",
"finish_reason": "stop"}` and the loop continues. -/
def processLines : List String → List Fragment × Option PyErr
  | [] => ([], none)
  | line :: rest =>
    if pyStrip line ≠ "" then
      match jsonLoads line with
      | none => ([], some PyErr.jsonDecodeError)
      | some json_data =>
        match extractFragment json_data with
        | Except.error e => ([], some e)
        | Except.ok f => (f :: (processLines rest).1, (processLines rest).2)
    else
      (⟨Json.str "", "stop"⟩ :: (processLines rest).1, (processLines rest).2)

/-- One entry of the caller-supplied conversation history: the loop in
`prepare_messages` reads `message.type` and `message.content` from each. -/
structure ConvMessage where
  type : String
  content : String

/-- One entry of the message list sent to the server. -/
structure Message where
  role : String
  content : String

/-- The fixed system instruction string `evaluate_instructor` of
`prepare_messages`, verbatim from the source (an f-string with no
interpolation fields). -/
def evaluate_instructor : String :=
  "You serve as a judge tasked with evaluating teachers and instructors based on their video transcripts.  You will receive a user query and context pieces that have a semantic similarity to that specific query. Please answer these user queries only their provided context. If the provided documentation does not provide enough information, say so. 
        Your assessment should cover various aspects, and your judgment should be quantified on a scale ranging from 0 to 3, with 0 indicating poor performance and 3 indicating exceptional performance. Ensure thorough consideration of the following criteria in your evaluation. final_output_matrix should contain a dictionary with each parameter as key and score as value.
        The criteria include -
        I)Communication Clarity
            Score: 0
            Example: \"Today, we're, um, going to... you know, discuss something important. It's, uh, related to what we talked about last time.\"
            Explanation: The teacher's speech is filled with pauses and filler words, making it difficult for students to understand the topic.  
            Score: 1
            Example: \"Today we will talk about photosynthesis. It's a process... um, well, plants use it to make food.\"
            Explanation: The teacher introduces the topic but lacks clarity and confidence, leading to potential confusion.
            Score: 2
            Example: \"Photosynthesis is the process by which plants convert sunlight into energy. This energy is used to create food for the plant.\"
            Explanation: The teacher explains the concept clearly but without much elaboration or detailed examples.
            Score: 3
            Example: \"Photosynthesis is the process by which plants convert sunlight into chemical energy. This process involves chlorophyll in the leaves capturing light energy to synthesize glucose from carbon dioxide and water, releasing oxygen as a byproduct. Think of it as plants' way of cooking their food using sunlight.\"
            Explanation: The teacher provides a clear, detailed explanation with an analogy that aids understanding.
        II)Positivity
            Score: 0
            Example: \"I guess we have to cover this boring topic today. Let's just get through it.\"
            Explanation: The teacher displays a negative attitude, which can demotivate students.
            Score: 1
            Example: \"Let's talk about our lesson for today. It's not the most exciting, but we need to cover it.\"
            Explanation: The teacher shows a neutral attitude, which may not engage or encourage students.
            Score: 2
            Example: \"Today we have an interesting topic to explore! It's going to be a good learning experience.\"
            Explanation: The teacher displays a generally positive attitude, creating a more welcoming environment.
            Score: 3
            Example: \"Good morning, everyone! I'm really excited about today's lesson. We're going to dive into the fascinating world of photosynthesis. I can't wait to see your thoughts and questions!\"
            Explanation: The teacher's enthusiasm and positive demeanor create an encouraging and supportive learning environment.
        III)Personal Engagement
            Score: 0
            Example: \"Just read the chapter on your own. I'll be at my desk if you need me.\"
            Explanation: The teacher shows little to no interest in engaging with students or the material.
            Score: 1
            Example: \"Okay, we'll go through the lesson. Let me know if you have any questions.\"
            Explanation: The teacher is somewhat engaged but lacks enthusiasm and deeper interaction.
            Score: 2
            Example: \"I'm looking forward to our discussion on this topic. I want to hear your thoughts and questions.\"
            Explanation: The teacher shows genuine interest in the topic and engages with students, encouraging participation.
            Score: 3
            Example: \"I love discussing this topic with you all. Your ideas and questions are fantastic. Let's explore this together and see where it takes us!\"
            Explanation: The teacher is highly engaged and enthusiastic, fostering an interactive and dynamic learning experience.
        IV)Classroom Management Practices
            Score: 0
            Example: \"Quiet down! Why can't you all just behave?\"
            Explanation: The teacher struggles to maintain order and discipline, leading to a chaotic classroom environment.
            Score: 1
            Example: \"Please settle down so we can start. We need to focus.\"
            Explanation: The teacher makes some effort to manage the class but lacks effective strategies to maintain discipline and engagement.
            Score: 2
            Example: \"Let's use our quiet signals and start our lesson. Remember the rules we agreed on.\"
            Explanation: The teacher employs some strategies to manage the classroom, maintaining a generally orderly environment.
            Score: 3
            Example: \"Great job on keeping our classroom rules! Let's move on to our next activity smoothly. I appreciate your cooperation.\"
            Explanation: The teacher effectively uses well-established strategies to maintain discipline and engagement, creating a well-managed classroom.
        V)Adherence to Rules
            Score: 0
            Example: \"I know the rule says no food, but whatever, just eat if you want.\"
            Explanation: The teacher blatantly disregards established rules and procedures.
            Score: 1
            Example: \"I'm not too strict on the no food rule, but try not to make a mess.\"
            Explanation: The teacher occasionally bends the rules, leading to potential inconsistency.
            Score: 2
            Example: \"Remember, no food in class as per the school policy. Let's stick to the rules.\"
            Explanation: The teacher generally adheres to the rules but might allow some flexibility.
            Score: 3
            Example: \"We all know the rules about no food in the classroom. Let's respect that to maintain a clean and focused environment.\"
            Explanation: The teacher consistently adheres to established rules and procedures, setting a clear example.
        VI)Classroom Atmosphere
            Score: 0
            Example: \"This class is so frustrating. I can't deal with this today.\"
            Explanation: The teacher creates a negative atmosphere, potentially affecting student motivation and learning.
            Score: 1
            Example: \"Let's just get through today's lesson. We'll try to make it better next time.\"
            Explanation: The teacher maintains a neutral atmosphere, which might not be very motivating for students.
            Score: 2
            Example: \"I appreciate everyone's effort today. Let's keep this positive energy going.\"
            Explanation: The teacher fosters a generally positive atmosphere, encouraging student participation and motivation.
            Score: 3
            Example: \"Fantastic work, everyone! I love the energy in this room. Let's keep this enthusiasm up throughout the lesson.\"
            Explanation: The teacher creates a highly positive and engaging atmosphere, greatly enhancing student motivation and learning.
        VII)Student Participation
            Score: 0
            Example: \"Just listen to me and don't ask questions right now.\"
            Explanation: The teacher discourages student participation, leading to a passive learning environment.
            Score: 1
            Example: \"I'll answer questions later. Let me finish the explanation first.\"
            Explanation: The teacher allows some participation but controls it tightly, limiting student engagement.
            Score: 2
            Example: \"Feel free to ask questions or share your thoughts as we go along.\"
            Explanation: The teacher encourages student participation, fostering a more interactive environment.
            Score: 3
            Example: \"What do you all think about this concept? Let's discuss your ideas and questions. I want everyone to contribute.\"
            Explanation: The teacher actively promotes student participation, creating an inclusive and engaging learning experience.
        The output you provide should be strictly in a format where the response is a json response with 2 elements in it. One is judge_parameters and other is final_output_matrix. Below is how it should look like.
        judge_parameters=
        1.Communication Clarity - *SCORE ON A SCALE OF 0-3* + Explanation of the score
        2.Positivity - *SCORE ON A SCALE OF 0-3* + Explanation of the score
        3.Personal Engagement - *SCORE ON A SCALE OF 0-3* + Explanation of the score
        4.Classroom Management Practices - *SCORE ON A SCALE OF 0-3* + Explanation of the score
        5.Adherence to Rules - *SCORE ON A SCALE OF 0-3* + Explanation of the score
        6.Classroom Atmosphere - *SCORE ON A SCALE OF 0-3* + Explanation of the score
        7.Student Participation - *SCORE ON A SCALE OF 0-3* + Explanation of the score
        final_output_matrix(with keys and values)
        "

/-- `prepare_messages` (lines 192-212 of the source): the fixed system
message, the conversation history mapped to role/content pairs in order
(the role read from the entry's `type` attribute), then one user message
built from the f-string template over `" ".join(queries)` and
`" ".join(context)`. -/
def prepare_messages (queries context : List String)
    (conversation : List ConvMessage) : List Message :=
  let messages : List Message := [⟨"system", evaluate_instructor⟩]
  let messages := messages ++ conversation.map (fun m => ⟨m.type, m.content⟩)
  let query := String.intercalate " " queries
  let user_context := String.intercalate " " context
  messages ++
    [⟨"user",
      "With this provided context: '" ++ user_context ++
        "' Please judge this instructor: '" ++ query ++ "'"⟩]

/-- The single HTTP POST of `generate_stream`: `session.post(url, json=data)`
with `data = {"model": model, "messages": messages}`. -/
structure Request where
  url : String
  model : String
  messages : List Message

/-- What the mocked transport does with the one request: deliver the response
body as the list of lines `async for line in response.content` iterates, or
raise a transport-level error. -/
inductive TransportResult where
  | ok (lines : List String) : TransportResult
  | failed : TransportResult

/-- What one call of the async generator does, from the caller's point of
view: the fragments yielded in order, the request handed to the transport
(the code reaches the POST on every path), and the exception that ends the
call, if any. -/
structure Outcome where
  fragments : List Fragment
  request : Option Request
  failure : Option PyErr

/-- The request `generate_stream` hands to the transport: the configured URL
(default empty) with `"/api/chat"` appended, the configured model (default
empty), and the prepared message list. -/
def mkRequest (env : String → Option String) (queries context : List String)
    (conversation : Option (List ConvMessage)) : Request :=
  ⟨(env "OLLAMA_URL").getD "" ++ "/api/chat", (env "OLLAMA_MODEL").getD "",
    prepare_messages queries context (conversation.getD [])⟩

/-- What a call yields past the POST: a transport failure propagates out of
the `try` block; otherwise the body-line loop runs. -/
def streamBody : TransportResult → List Fragment × Option PyErr
  | TransportResult.failed => ([], some PyErr.transportError)
  | TransportResult.ok lines => processLines lines

/-- `generate_stream` (lines 18-70 of the source).  `env` stands for
`os.environ`; `transport` for the `aiohttp` session and POST.  When
`OLLAMA_URL` is missing or empty the generator yields the
`Missing Ollama URL` fragment — and then falls through (there is no
`return` in that branch): it still appends `"/api/chat"`, builds the
messages and issues the POST. -/
def generate_stream (env : String → Option String)
    (transport : Request → TransportResult)
    (queries context : List String)
    (conversation : Option (List ConvMessage)) : Outcome :=
  let url := (env "OLLAMA_URL").getD ""
  let headFrags : List Fragment :=
    if url = "" then [⟨Json.str "Missing Ollama URL", "stop"⟩] else []
  let req := mkRequest env queries context conversation
  let body := streamBody (transport req)
  ⟨headFrags ++ body.1, some req, body.2⟩

theorem generate_stream_fragments_eq (env : String → Option String)
    (transport : Request → TransportResult) (queries context : List String)
    (conversation : Option (List ConvMessage)) :
    (generate_stream env transport queries context conversation).fragments =
      (if (env "OLLAMA_URL").getD "" = "" then
          [⟨Json.str "Missing Ollama URL", "stop"⟩] else []) ++
        (streamBody (transport (mkRequest env queries context conversation))).1 :=
  rfl

theorem generate_stream_request_eq (env : String → Option String)
    (transport : Request → TransportResult) (queries context : List String)
    (conversation : Option (List ConvMessage)) :
    (generate_stream env transport queries context conversation).request =
      some (mkRequest env queries context conversation) :=
  rfl

theorem generate_stream_failure_eq (env : String → Option String)
    (transport : Request → TransportResult) (queries context : List String)
    (conversation : Option (List ConvMessage)) :
    (generate_stream env transport queries context conversation).failure =
      (streamBody (transport (mkRequest env queries context conversation))).2 :=
  rfl

/-- The fixed system message `prepare_messages` starts with. -/
def systemMessage : Message := ⟨"system", evaluate_instructor⟩

/-- The final user message `prepare_messages` appends: the f-string template
over the space-joined context and the space-joined queries. -/
def userMessage (queries context : List String) : Message :=
  ⟨"user",
    "With this provided context: '" ++ String.intercalate " " context ++
      "' Please judge this instructor: '" ++ String.intercalate " " queries ++
      "'"⟩

/-- An environment with both configuration variables present. -/
def envWithConfig : String → Option String :=
  fun k =>
    if k = "OLLAMA_URL" then some "http://localhost:11434"
    else if k = "OLLAMA_MODEL" then some "llama2"
    else none

/-- C1: the claim says a call with the endpoint URL missing yields exactly
one completed fragment and then ends with no network request attempted and
no exception.  The code disagrees: there is no `return` after the yield, so
evaluated at a concrete input (no environment variables, a transport that
fails as a POST to the relative URL "/api/chat" would), the outcome still
records the attempted request and the propagated transport error. -/
theorem C1_missing_url_still_posts :
    generate_stream (fun _ => none) (fun _ => TransportResult.failed)
        ["q"] ["c"] none =
      ⟨[⟨Json.str "Missing Ollama URL", "stop"⟩],
        some ⟨"/api/chat", "", prepare_messages ["q"] ["c"] []⟩,
        some PyErr.transportError⟩ := by
  rfl

/-- The three NDJSON body lines of claim C2, newline-terminated exactly as
the response-body iterator delivers them. -/
def c2Lines : List String :=
  ["\x7b\"message\":\x7b\"content\":\"Hel\"\x7d,\"done\":false\x7d\n",
   "\x7b\"message\":\x7b\"content\":\"lo\"\x7d,\"done\":false\x7d\n",
   "\x7b\"message\":\x7b\"content\":\"\"\x7d,\"done\":true\x7d\n"]

/-- C2: on a response body of exactly those three non-blank NDJSON lines,
the call yields exactly three fragments in order — ("Hel", not completed),
("lo", not completed), ("", completed) — and no error. -/
theorem C2_three_fragments :
    (generate_stream envWithConfig (fun _ => TransportResult.ok c2Lines)
        ["q"] ["c"] none).fragments =
      [⟨Json.str "Hel", ""⟩, ⟨Json.str "lo", ""⟩, ⟨Json.str "", "stop"⟩] ∧
    (generate_stream envWithConfig (fun _ => TransportResult.ok c2Lines)
        ["q"] ["c"] none).failure = none := by
  exact ⟨rfl, rfl⟩

/-- C6: for every conversation history, the built message list is exactly
the fixed system message, then the history mapped to role/content pairs in
its original order, then the single final user message. -/
theorem C6_message_list_order (queries context : List String)
    (conversation : List ConvMessage) :
    prepare_messages queries context conversation =
      systemMessage ::
        (conversation.map fun m => (⟨m.type, m.content⟩ : Message)) ++
          [userMessage queries context] := by
  simp [prepare_messages, systemMessage, userMessage]

/-- C9: an absent conversation is treated as an empty history: the call is
the same as with an empty history, the request carries exactly two
messages, and they are the fixed system message followed by the final user
message. -/
theorem C9_none_conversation_empty (env : String → Option String)
    (transport : Request → TransportResult) (queries context : List String) :
    generate_stream env transport queries context none =
      generate_stream env transport queries context (some []) ∧
    (generate_stream env transport queries context none).request =
      some (mkRequest env queries context none) ∧
    (mkRequest env queries context none).messages =
      [systemMessage, userMessage queries context] := by
  refine ⟨rfl, rfl, ?_⟩
  simp [mkRequest, prepare_messages, systemMessage, userMessage]

/-- C8: the call is deterministic in its inputs: two calls whose
environments agree on the two configuration variables and whose transports
agree pointwise produce identical outcomes — in particular, identical
fragment sequences.  Nothing else about the environment or transport is
read. -/
theorem C8_deterministic (env1 env2 : String → Option String)
    (tr1 tr2 : Request → TransportResult)
    (queries context : List String) (conversation : Option (List ConvMessage))
    (hu : env1 "OLLAMA_URL" = env2 "OLLAMA_URL")
    (hm : env1 "OLLAMA_MODEL" = env2 "OLLAMA_MODEL")
    (ht : ∀ r, tr1 r = tr2 r) :
    generate_stream env1 tr1 queries context conversation =
      generate_stream env2 tr2 queries context conversation := by
  have hreq : mkRequest env1 queries context conversation =
      mkRequest env2 queries context conversation := by
    unfold mkRequest
    rw [hu, hm]
  simp only [generate_stream]
  rw [hu, hreq, ht]

/-- Witness for C8 at concrete inputs: the environments differ on an
unrelated variable but agree on the two configuration variables, and the
transports are pointwise equal. -/
theorem C8_deterministic_witness :
    envWithConfig "OLLAMA_URL" =
      (fun k => if k = "EXTRA" then some "x" else envWithConfig k)
        "OLLAMA_URL" ∧
    generate_stream envWithConfig (fun _ => TransportResult.ok []) ["q"] ["c"]
        none =
      generate_stream
        (fun k => if k = "EXTRA" then some "x" else envWithConfig k)
        (fun _ => TransportResult.ok []) ["q"] ["c"] none := by
  exact ⟨rfl,
    C8_deterministic _ _ _ _ _ _ _ rfl rfl (fun _ => rfl)⟩

theorem processLines_cons_ok (l : String) (rest : List String) (j : Json)
    (f : Fragment) (hl : pyStrip l ≠ "") (hj : jsonLoads l = some j)
    (he : extractFragment j = Except.ok f) :
    processLines (l :: rest) =
      (f :: (processLines rest).1, (processLines rest).2) := by
  simp [processLines, hl, hj, he]

theorem processLines_cons_blank (l : String) (rest : List String)
    (hl : pyStrip l = "") :
    processLines (l :: rest) =
      (⟨Json.str "", "stop"⟩ :: (processLines rest).1,
        (processLines rest).2) := by
  simp [processLines, hl]

theorem processLines_cons_badjson (l : String) (rest : List String)
    (hl : pyStrip l ≠ "") (hj : jsonLoads l = none) :
    processLines (l :: rest) = ([], some PyErr.jsonDecodeError) := by
  simp [processLines, hl, hj]

theorem processLines_cons_badattr (l : String) (rest : List String) (j : Json)
    (e : PyErr) (hl : pyStrip l ≠ "") (hj : jsonLoads l = some j)
    (he : extractFragment j = Except.error e) :
    processLines (l :: rest) = ([], some e) := by
  simp [processLines, hl, hj, he]

/-- When a prefix of the body is consumed without error, the loop's output
on the whole body is that prefix's fragments followed by whatever the rest
produces. -/
theorem processLines_append_of_ok (pre rest : List String) :
    (processLines pre).2 = none →
    processLines (pre ++ rest) =
      ((processLines pre).1 ++ (processLines rest).1,
        (processLines rest).2) := by
  induction pre with
  | nil => intro _; simp [processLines]
  | cons l pre ih =>
    intro h
    by_cases hl : pyStrip l = ""
    · rw [processLines_cons_blank l pre hl] at h
      rw [List.cons_append, processLines_cons_blank l (pre ++ rest) hl,
        ih h, processLines_cons_blank l pre hl]
      simp
    · cases hj : jsonLoads l with
      | none =>
        rw [processLines_cons_badjson l pre hl hj] at h
        simp at h
      | some j =>
        cases he : extractFragment j with
        | error e =>
          rw [processLines_cons_badattr l pre j e hl hj he] at h
          simp at h
        | ok f =>
          rw [processLines_cons_ok l pre j f hl hj he] at h
          rw [List.cons_append, processLines_cons_ok l (pre ++ rest) j f hl hj he,
            ih h, processLines_cons_ok l pre j f hl hj he]
          simp

/-- C4: a blank (whitespace-only) body line between other lines makes the
call emit, at that position, an extra fragment with empty text and the
completion marker, and the loop keeps consuming and yielding the later
lines. -/
theorem C4_blank_line_continues (env : String → Option String)
    (transport : Request → TransportResult)
    (queries context : List String) (conversation : Option (List ConvMessage))
    (u : String) (pre post : List String) (b : String)
    (hu : env "OLLAMA_URL" = some u) (hne : u ≠ "")
    (hb : pyStrip b = "")
    (hpre : (processLines pre).2 = none)
    (ht : ∀ r, transport r = TransportResult.ok (pre ++ b :: post)) :
    (generate_stream env transport queries context conversation).fragments =
      (processLines pre).1 ++
        ⟨Json.str "", "stop"⟩ :: (processLines post).1 ∧
    (generate_stream env transport queries context conversation).failure =
      (processLines post).2 := by
  have hbody : streamBody
      (transport (mkRequest env queries context conversation)) =
      processLines (pre ++ b :: post) := by
    rw [ht]
    rfl
  have hsplit : processLines (pre ++ b :: post) =
      ((processLines pre).1 ++
          ⟨Json.str "", "stop"⟩ :: (processLines post).1,
        (processLines post).2) := by
    rw [processLines_append_of_ok pre (b :: post) hpre,
      processLines_cons_blank b post hb]
  constructor
  · rw [generate_stream_fragments_eq, hu, Option.getD_some, if_neg hne,
      hbody, hsplit]
    simp
  · rw [generate_stream_failure_eq, hbody, hsplit]

/-- The body lines around the blank line in the C4 witness. -/
def c4Pre : List String := ["\x7b\"message\":\x7b\"content\":\"a\"\x7d\x7d\n"]

/-- The body lines after the blank line in the C4 witness. -/
def c4Post : List String := ["\x7b\"message\":\x7b\"content\":\"b\"\x7d\x7d\n"]

/-- Witness for C4 at a concrete body: one content line, a blank line, one
more content line. -/
theorem C4_blank_line_continues_witness :
    pyStrip "\n" = "" ∧ (processLines c4Pre).2 = none ∧
    (generate_stream envWithConfig
        (fun _ => TransportResult.ok (c4Pre ++ "\n" :: c4Post)) ["q"] ["c"]
        none).fragments =
      (processLines c4Pre).1 ++
        ⟨Json.str "", "stop"⟩ :: (processLines c4Post).1 := by
  refine ⟨rfl, rfl, ?_⟩
  exact (C4_blank_line_continues envWithConfig _ ["q"] ["c"] none
    "http://localhost:11434" c4Pre c4Post "\n" rfl (by decide) rfl rfl
    (fun _ => rfl)).1

/-- C7: a non-blank body line that is not valid JSON makes the call
propagate a fatal `json.JSONDecodeError`; the fragments emitted for the
error-free prefix are exactly what the caller received, and nothing after
the failing line is yielded. -/
theorem C7_malformed_line_fatal (env : String → Option String)
    (transport : Request → TransportResult)
    (queries context : List String) (conversation : Option (List ConvMessage))
    (u : String) (pre post : List String) (bad : String)
    (hu : env "OLLAMA_URL" = some u) (hne : u ≠ "")
    (hbad1 : pyStrip bad ≠ "") (hbad2 : jsonLoads bad = none)
    (hpre : (processLines pre).2 = none)
    (ht : ∀ r, transport r = TransportResult.ok (pre ++ bad :: post)) :
    (generate_stream env transport queries context conversation).fragments =
      (processLines pre).1 ∧
    (generate_stream env transport queries context conversation).failure =
      some PyErr.jsonDecodeError := by
  have hbody : streamBody
      (transport (mkRequest env queries context conversation)) =
      processLines (pre ++ bad :: post) := by
    rw [ht]
    rfl
  have hsplit : processLines (pre ++ bad :: post) =
      ((processLines pre).1, some PyErr.jsonDecodeError) := by
    rw [processLines_append_of_ok pre (bad :: post) hpre,
      processLines_cons_badjson bad post hbad1 hbad2]
    simp
  constructor
  · rw [generate_stream_fragments_eq, hu, Option.getD_some, if_neg hne,
      hbody, hsplit]
    simp
  · rw [generate_stream_failure_eq, hbody, hsplit]

/-- Witness for C7 at a concrete body: one valid line, then a line that is
not JSON, then a line that is never reached. -/
theorem C7_malformed_line_fatal_witness :
    pyStrip "oops" ≠ "" ∧ jsonLoads "oops" = none ∧
    (generate_stream envWithConfig
        (fun _ => TransportResult.ok (c4Pre ++ "oops" :: c4Post)) ["q"] ["c"]
        none).fragments = (processLines c4Pre).1 ∧
    (generate_stream envWithConfig
        (fun _ => TransportResult.ok (c4Pre ++ "oops" :: c4Post)) ["q"] ["c"]
        none).failure = some PyErr.jsonDecodeError := by
  refine ⟨by decide, rfl, ?_, ?_⟩
  · exact (C7_malformed_line_fatal envWithConfig _ ["q"] ["c"] none
      "http://localhost:11434" c4Pre c4Post "oops" rfl (by decide) (by decide)
      rfl rfl (fun _ => rfl)).1
  · exact (C7_malformed_line_fatal envWithConfig _ ["q"] ["c"] none
      "http://localhost:11434" c4Pre c4Post "oops" rfl (by decide) (by decide)
      rfl rfl (fun _ => rfl)).2

/-- Spec-side (claim C3): the fragment text the claim promises for a parsed
object — the object's `message.content`, defaulting to the empty string
when absent. -/
def claimedText (fields : List (String × Json)) : Json :=
  match objGet fields "message" with
  | some (Json.obj mfields) => (objGet mfields "content").getD (Json.str "")
  | _ => Json.str ""

/-- Spec-side (claim C3): the completion flag the claim promises for a
parsed object — the object's `done` field, defaulting to false when
absent. -/
def claimedDone (fields : List (String × Json)) : Bool :=
  match objGet fields "done" with
  | some (Json.bool b) => b
  | _ => false

/-- C3: the fragment emitted for a non-blank line that parses to a JSON
object carries as text the object's `message.content` (empty string when
absent) and as completion flag the object's `done` (false when absent),
both read from the same object and reported together in the one fragment. -/
theorem C3_fragment_from_object (line : String) (rest : List String)
    (fields : List (String × Json))
    (hline : pyStrip line ≠ "")
    (hparse : jsonLoads line = some (Json.obj fields))
    (hmsg : objGet fields "message" = none ∨
      ∃ mfields, objGet fields "message" = some (Json.obj mfields))
    (hdone : objGet fields "done" = none ∨
      ∃ b, objGet fields "done" = some (Json.bool b)) :
    (processLines (line :: rest)).1.head? =
      some ⟨claimedText fields,
        if claimedDone fields then "stop" else ""⟩ := by
  have hext : extractFragment (Json.obj fields) =
      Except.ok ⟨claimedText fields,
        if claimedDone fields then "stop" else ""⟩ := by
    rcases hmsg with hm | ⟨mfields, hm⟩ <;> rcases hdone with hd | ⟨b, hd⟩ <;>
      simp [extractFragment, claimedText, claimedDone, hm, hd, truthy, objGet]
  rw [processLines_cons_ok line rest (Json.obj fields) _ hline hparse hext]
  simp

/-- Witness for C3 at a concrete line: an object with a `done` field and no
`message` field. -/
theorem C3_fragment_from_object_witness :
    pyStrip "\x7b\"done\":true\x7d" ≠ "" ∧
    jsonLoads "\x7b\"done\":true\x7d" =
      some (Json.obj [("done", Json.bool true)]) ∧
    (processLines ["\x7b\"done\":true\x7d"]).1.head? =
      some ⟨claimedText [("done", Json.bool true)],
        if claimedDone [("done", Json.bool true)] then "stop" else ""⟩ := by
  refine ⟨by decide, rfl, ?_⟩
  exact C3_fragment_from_object "\x7b\"done\":true\x7d" []
    [("done", Json.bool true)] (by decide) rfl (Or.inl rfl)
    (Or.inr ⟨true, rfl⟩)

/-- C5: for non-empty query and context lists, the final entry of the built
message list is the user-role message, and its content embeds — verbatim,
with no escaping — both the context strings joined with single spaces and
the query strings joined with single spaces. -/
theorem C5_user_message_embeds (queries context : List String)
    (conversation : List ConvMessage)
    (hq : queries ≠ []) (hc : context ≠ []) :
    (prepare_messages queries context conversation).getLast? =
      some (userMessage queries context) ∧
    (userMessage queries context).role = "user" ∧
    (String.intercalate " " context).data <:+:
      (userMessage queries context).content.data ∧
    (String.intercalate " " queries).data <:+:
      (userMessage queries context).content.data := by
  refine ⟨?_, rfl, ?_, ?_⟩
  · show (_ ++ [userMessage queries context]).getLast? = _
    rw [List.getLast?_concat]
  · refine ⟨"With this provided context: '".data,
      ("' Please judge this instructor: '" ++ String.intercalate " " queries
        ++ "'").data, ?_⟩
    simp [userMessage, String.data_append, List.append_assoc]
  · refine ⟨("With this provided context: '" ++ String.intercalate " " context
      ++ "' Please judge this instructor: '").data, "'".data, ?_⟩
    simp [userMessage, String.data_append, List.append_assoc]

/-- Witness for C5 at concrete non-empty lists. -/
theorem C5_user_message_embeds_witness :
    (["q1", "q2"] : List String) ≠ [] ∧ (["c1"] : List String) ≠ [] ∧
    ((prepare_messages ["q1", "q2"] ["c1"] []).getLast? =
      some (userMessage ["q1", "q2"] ["c1"]) ∧
    (userMessage ["q1", "q2"] ["c1"]).role = "user" ∧
    (String.intercalate " " ["c1"]).data <:+:
      (userMessage ["q1", "q2"] ["c1"]).content.data ∧
    (String.intercalate " " ["q1", "q2"]).data <:+:
      (userMessage ["q1", "q2"] ["c1"]).content.data) := by
  exact ⟨by decide, by decide,
    C5_user_message_embeds ["q1", "q2"] ["c1"] [] (by decide) (by decide)⟩

theorem extractFragment_ok_finish (j : Json) (f : Fragment)
    (h : extractFragment j = Except.ok f) :
    f.finish_reason = "" ∨ f.finish_reason = "stop" := by
  cases j with
  | obj fields =>
    simp only [extractFragment] at h
    split at h
    · injection h with h1
      subst h1
      show (if truthy ((objGet fields "done").getD (Json.bool false)) then
          "stop" else "") = "" ∨
        (if truthy ((objGet fields "done").getD (Json.bool false)) then
          "stop" else "") = "stop"
      by_cases hd : truthy ((objGet fields "done").getD (Json.bool false))
      · rw [if_pos hd]; exact Or.inr rfl
      · rw [if_neg hd]; exact Or.inl rfl
    · exact Except.noConfusion h
  | null => simp [extractFragment] at h
  | bool b => simp [extractFragment] at h
  | num s => simp [extractFragment] at h
  | str s => simp [extractFragment] at h
  | arr l => simp [extractFragment] at h

/-- Every fragment the body-line loop yields has `finish_reason` empty or
`"stop"`. -/
theorem processLines_finish_values (lines : List String) :
    ∀ f ∈ (processLines lines).1,
      f.finish_reason = "" ∨ f.finish_reason = "stop" := by
  induction lines with
  | nil => intro f hf; simp [processLines] at hf
  | cons l rest ih =>
    intro f hf
    by_cases hl : pyStrip l = ""
    · rw [processLines_cons_blank l rest hl] at hf
      rcases List.mem_cons.mp hf with hf | hf
      · subst hf; exact Or.inr rfl
      · exact ih f hf
    · cases hj : jsonLoads l with
      | none =>
        rw [processLines_cons_badjson l rest hl hj] at hf
        simp at hf
      | some j =>
        cases he : extractFragment j with
        | error e =>
          rw [processLines_cons_badattr l rest j e hl hj he] at hf
          simp at hf
        | ok g =>
          rw [processLines_cons_ok l rest j g hl hj he] at hf
          rcases List.mem_cons.mp hf with hf | hf
          · subst hf; exact extractFragment_ok_finish j _ he
          · exact ih f hf

/-- C10: every fragment any call ever yields — on the missing-configuration
path, for a parsed line, or for a blank line — is the two-field record of
text and completion indicator, and the indicator is always either the empty
string or exactly `"stop"`. -/
theorem C10_fragment_shape (env : String → Option String)
    (transport : Request → TransportResult)
    (queries context : List String) (conversation : Option (List ConvMessage))
    (f : Fragment)
    (hf : f ∈ (generate_stream env transport queries context
        conversation).fragments) :
    f.finish_reason = "" ∨ f.finish_reason = "stop" := by
  rw [generate_stream_fragments_eq] at hf
  rcases List.mem_append.mp hf with hf | hf
  · by_cases hurl : (env "OLLAMA_URL").getD "" = ""
    · rw [if_pos hurl] at hf
      rcases List.mem_cons.mp hf with hf | hf
      · subst hf; exact Or.inr rfl
      · simp at hf
    · rw [if_neg hurl] at hf
      simp at hf
  · cases htr : transport (mkRequest env queries context conversation) with
    | failed =>
      rw [htr] at hf
      simp [streamBody] at hf
    | ok lines =>
      rw [htr] at hf
      exact processLines_finish_values lines f hf

/-- Witness for C10 at a concrete call and fragment: the
missing-configuration fragment. -/
theorem C10_fragment_shape_witness :
    (⟨Json.str "Missing Ollama URL", "stop"⟩ : Fragment) ∈
      (generate_stream (fun _ => none) (fun _ => TransportResult.failed)
        ["q"] ["c"] none).fragments ∧
    ((⟨Json.str "Missing Ollama URL", "stop"⟩ : Fragment).finish_reason = ""
      ∨ (⟨Json.str "Missing Ollama URL", "stop"⟩ : Fragment).finish_reason =
        "stop") := by
  have hf : (⟨Json.str "Missing Ollama URL", "stop"⟩ : Fragment) ∈
      (generate_stream (fun _ => none) (fun _ => TransportResult.failed)
        ["q"] ["c"] none).fragments := by
    show (⟨Json.str "Missing Ollama URL", "stop"⟩ : Fragment) ∈
      [(⟨Json.str "Missing Ollama URL", "stop"⟩ : Fragment)]
    exact List.mem_singleton.mpr rfl
  exact ⟨hf, C10_fragment_shape _ _ _ _ _ _ hf⟩
